import Mathlib

set_option maxHeartbeats 1000000

/-! Shallow embedding of the tana-validation diagnostic formatter
(src/src/lib.rs): the functions format_validation_error and
format_error_impl, together with a model of the line splitting performed
by the Rust standard library on the code argument. -/

/-- Scanner behind the line splitting of the Rust standard library as used
on the code argument: acc holds the characters of the current line read so
far, in reverse order.  A line ends at a newline character; a carriage
return immediately before that newline is excluded from the line; a final
line without terminator is kept, and a terminator at the very end does not
open a further empty line. -/
def linesAux : List Char → List Char → List (List Char)
  | acc, [] => if acc.isEmpty then [] else [acc.reverse]
  | acc, c :: rest =>
    if c = '\n' then
      (if acc.head? = some '\r' then acc.tail else acc).reverse :: linesAux [] rest
    else
      linesAux (c :: acc) rest

/-- The list of lines of a string, modelling the lines method of the Rust
standard library applied to code in format_error_impl. -/
def rustLines (s : String) : List String :=
  (linesAux [] s.data).map String.mk

/-- The excerpt resolution of format_error_impl: the selected source line,
or the empty string when line_num is out of range. -/
def errorLineOf (code : String) (line_num : Nat) : String :=
  let lines := rustLines code
  if 0 < line_num ∧ line_num ≤ lines.length then lines.getD (line_num - 1) "" else ""

/-- n space characters, modelling the repeat of a one space string. -/
def spaces (n : Nat) : String := String.mk (List.replicate n ' ')

/-- n caret characters, modelling the repeat of a one caret string. -/
def caretRun (n : Nat) : String := String.mk (List.replicate n '^')

/-- Right alignment in a field of width three, as the width three format
directive of the Rust source renders the line number. -/
def alignRight3 (s : String) : String := spaces (3 - s.length) ++ s

/-- The template assembly of format_error_impl: the format macro call of
the Rust source, with the already resolved excerpt line and the already
clamped underline length substituted in.  Each backslash continuation of
the Rust format literal removes the line break and all leading whitespace
of the following line, so the underline gutter line starts directly with
its separator character. -/
def renderReport (file_path error_kind : String) (line_num col_num : Nat)
    (error_line message help : String) (underline_length : Nat) : String :=
  "\nValidation Error\n❌ " ++ error_kind ++ "\n\n┌─ " ++ file_path ++ ":" ++
    Nat.repr line_num ++ ":" ++ Nat.repr col_num ++ "\n│\n" ++
    alignRight3 (Nat.repr line_num) ++ " │ " ++ error_line ++ "\n│ " ++
    spaces (col_num - 1) ++ caretRun underline_length ++ " " ++ message ++
    "\n│\n= help: " ++ help ++ "\n│\n"

/-- Internal implementation of error formatting (format_error_impl of the
Rust source): resolves the excerpt line, clamps the underline length to at
least one, computes the column padding with saturating subtraction, and
assembles the template. -/
def format_error_impl (code file_path error_kind : String) (line_num col_num : Nat)
    (message help : String) (underline_length : Nat) : String :=
  renderReport file_path error_kind line_num col_num (errorLineOf code line_num)
    message help (underline_length.max 1)

/-- The exported function format_validation_error of the Rust source: it
forwards all eight arguments to format_error_impl. -/
def format_validation_error (code file_path error_kind : String) (line_num col_num : Nat)
    (message help : String) (underline_length : Nat) : String :=
  format_error_impl code file_path error_kind line_num col_num message help underline_length

/-- Variant of format_error_impl exposing the partial list indexing of the
Rust source as an Option: none models the panic of an out of bounds index,
so the function is total exactly when this variant never returns none. -/
def format_error_impl? (code file_path error_kind : String) (line_num col_num : Nat)
    (message help : String) (underline_length : Nat) : Option String :=
  let lines := rustLines code
  let oline : Option String :=
    if 0 < line_num ∧ line_num ≤ lines.length then lines[line_num - 1]? else some ""
  match oline with
  | none => none
  | some error_line =>
      some (renderReport file_path error_kind line_num col_num error_line
        message help (underline_length.max 1))

/-- Number of occurrences of a character in a string. -/
def countChar (s : String) (c : Char) : Nat := s.data.count c

/-- Whether a character list ends with a newline character. -/
def endsWithNl : List Char → Bool
  | [] => false
  | [c] => c = '\n'
  | _ :: c :: rest => endsWithNl (c :: rest)

/-! Helper lemmas. -/

/-- Digits produced by the decimal printer are never a caret. -/
theorem toDigitsCore_ne_caret :
    ∀ (fuel n : Nat) (ds : List Char), (∀ c ∈ ds, c ≠ '^') →
      ∀ c ∈ Nat.toDigitsCore 10 fuel n ds, c ≠ '^' := by
  intro fuel
  induction fuel with
  | zero => intro n ds hds; simpa [Nat.toDigitsCore] using hds
  | succ fuel ih =>
    intro n ds hds c hc
    have hdig : ∀ k, k < 10 → Nat.digitChar k ≠ '^' := by decide
    simp only [Nat.toDigitsCore] at hc
    split at hc
    · rcases List.mem_cons.mp hc with h | h
      · subst h; exact hdig _ (Nat.mod_lt _ (by omega))
      · exact hds _ h
    · refine ih _ _ ?_ _ hc
      intro d hd
      rcases List.mem_cons.mp hd with h | h
      · subst h; exact hdig _ (Nat.mod_lt _ (by omega))
      · exact hds _ h

/-- The decimal rendering of a natural number holds no caret character. -/
theorem repr_ne_caret (n : Nat) : ∀ c ∈ (Nat.repr n).data, c ≠ '^' := by
  have h : (Nat.repr n).data = Nat.toDigitsCore 10 (n + 1) n [] := rfl
  rw [h]
  exact toDigitsCore_ne_caret (n + 1) n [] (by simp)

/-- Every character of every line produced by the scanner comes from the
accumulator or from the input. -/
theorem linesAux_subset :
    ∀ (l acc : List Char), ∀ m ∈ linesAux acc l, ∀ c ∈ m, c ∈ acc ∨ c ∈ l := by
  intro l
  induction l with
  | nil =>
    intro acc m hm c hc
    simp only [linesAux] at hm
    split at hm
    · simp at hm
    · simp only [List.mem_singleton] at hm
      subst hm
      exact Or.inl (List.mem_reverse.mp hc)
  | cons a rest ih =>
    intro acc m hm c hc
    simp only [linesAux] at hm
    split at hm
    · rcases List.mem_cons.mp hm with h | h
      · subst h
        rw [List.mem_reverse] at hc
        split at hc
        · exact Or.inl (List.mem_of_mem_tail hc)
        · exact Or.inl hc
      · rcases ih [] m h c hc with h2 | h2
        · simp at h2
        · exact Or.inr (List.mem_cons_of_mem _ h2)
    · rcases ih (a :: acc) m hm c hc with h2 | h2
      · rcases List.mem_cons.mp h2 with h3 | h3
        · subst h3; exact Or.inr (List.mem_cons_self _ _)
        · exact Or.inl h3
      · exact Or.inr (List.mem_cons_of_mem _ h2)

/-- No emitted line contains a newline character, provided the accumulator
holds none. -/
theorem linesAux_no_newline :
    ∀ (l acc : List Char), '\n' ∉ acc → ∀ m ∈ linesAux acc l, '\n' ∉ m := by
  intro l
  induction l with
  | nil =>
    intro acc hacc m hm
    simp only [linesAux] at hm
    split at hm
    · simp at hm
    · simp only [List.mem_singleton] at hm
      subst hm
      simpa [List.mem_reverse] using hacc
  | cons a rest ih =>
    intro acc hacc m hm
    simp only [linesAux] at hm
    split at hm
    · rcases List.mem_cons.mp hm with h | h
      · subst h
        rw [List.mem_reverse]
        split
        · exact fun hmem => hacc (List.mem_of_mem_tail hmem)
        · exact hacc
      · exact ih [] (by simp) m h
    · rename_i ha
      refine ih (a :: acc) ?_ m hm
      intro hmem
      rcases List.mem_cons.mp hmem with h | h
      · exact ha h.symm
      · exact hacc h

/-- Length bookkeeping for the scanner: the emitted lines are one per
newline character, plus one for a final unterminated line. -/
theorem linesAux_length :
    ∀ (l acc : List Char), (linesAux acc l).length =
      l.count '\n' + (if l = [] ∧ acc = [] then 0 else if endsWithNl l then 0 else 1) := by
  intro l
  induction l with
  | nil =>
    intro acc
    by_cases h : acc = [] <;> simp [linesAux, h, endsWithNl]
  | cons a rest ih =>
    intro acc
    simp only [linesAux]
    by_cases ha : a = '\n'
    · subst ha
      rw [if_pos rfl]
      cases rest with
      | nil => simp [linesAux, List.count_cons, endsWithNl]
      | cons b bs =>
        rw [List.length_cons, ih []]
        simp only [List.count_cons, endsWithNl]
        split <;> simp <;> omega
    · rw [if_neg ha, ih (a :: acc)]
      have hcount : (a :: rest).count '\n' = rest.count '\n' := by
        simp [List.count_cons, ha]
      cases rest with
      | nil => simp [List.count_cons, endsWithNl, ha]
      | cons b bs =>
        rw [hcount]
        simp [endsWithNl]

/-- Every character of the resolved excerpt line occurs in the code input. -/
theorem errorLineOf_subset (code : String) (ln : Nat) :
    ∀ c ∈ (errorLineOf code ln).data, c ∈ code.data := by
  intro c hc
  simp only [errorLineOf] at hc
  split at hc
  · rename_i h
    have hlt : ln - 1 < (rustLines code).length := by omega
    rw [List.getD_eq_getElem _ _ hlt] at hc
    have hmem : (rustLines code)[ln - 1] ∈ rustLines code := List.getElem_mem hlt
    simp only [rustLines, List.mem_map] at hmem
    obtain ⟨m, hm, he⟩ := hmem
    have he2 : (rustLines code)[ln - 1] = String.mk m := by
      simpa [rustLines] using he.symm
    rw [he2] at hc
    rcases linesAux_subset code.data [] m hm c hc with h2 | h2
    · simp at h2
    · exact h2
  · simp at hc

/-- Counting a character distributes over string concatenation. -/
theorem countChar_append (s t : String) (c : Char) :
    countChar (s ++ t) c = countChar s c + countChar t c := by
  simp [countChar, String.data_append]

/-- A run of spaces holds no caret. -/
theorem countChar_spaces (n : Nat) : countChar (spaces n) '^' = 0 := by
  simp [countChar, spaces, List.count_replicate]

/-- A caret run of length n holds exactly n carets. -/
theorem countChar_caretRun (n : Nat) : countChar (caretRun n) '^' = n := by
  simp [countChar, caretRun, List.count_replicate]

/-- The decimal rendering of a natural number holds no caret. -/
theorem countChar_repr (n : Nat) : countChar (Nat.repr n) '^' = 0 :=
  List.count_eq_zero.mpr (fun h => repr_ne_caret n _ h rfl)

/-- The aligned line number gutter holds no caret. -/
theorem countChar_alignRight3 (n : Nat) : countChar (alignRight3 (Nat.repr n)) '^' = 0 := by
  simp [alignRight3, countChar_append, countChar_spaces, countChar_repr]

/-- The resolved excerpt holds no caret when the code input holds none. -/
theorem countChar_errorLineOf (code : String) (ln : Nat) (h : countChar code '^' = 0) :
    countChar (errorLineOf code ln) '^' = 0 := by
  refine List.count_eq_zero.mpr ?_
  intro hc
  exact List.count_eq_zero.mp h (errorLineOf_subset code ln '^' hc)

/-- The width of a run of spaces. -/
theorem spaces_length (n : Nat) : (spaces n).length = n := by
  simp [spaces, String.length]

/-! Claim theorems. -/

/-- C1: what format_validation_error actually returns at a concrete input.
The underline gutter line of the output is rendered with no leading space
characters before its separator: the backslash continuations of the Rust
format literal discard the indentation of the following line, so the
emitted line is a separator, one space, the padding, the carets and the
message, contradicting the four leading spaces of the documented template. -/
theorem C1_actual_output :
    format_validation_error "test" "test.ts" "Error" 1 1 "msg" "help" 1 =
      "\nValidation Error\n❌ Error\n\n┌─ test.ts:1:1\n│\n  1 │ test\n│ ^ msg\n│\n= help: help\n│\n" := by
  decide

/-- C2: format_validation_error is total: the variant in which the list
indexing of the Rust source is partial always returns some value, namely
the value of the total function, for every input, so no panic, out of
bounds access or error path is reachable. -/
theorem C2_totality :
    ∀ (code file_path error_kind : String) (line_num col_num : Nat)
      (message help : String) (underline_length : Nat),
      format_error_impl? code file_path error_kind line_num col_num message help
          underline_length =
        some (format_error_impl code file_path error_kind line_num col_num message help
          underline_length) := by
  intro code file_path error_kind line_num col_num message help underline_length
  simp only [format_error_impl?, format_error_impl, errorLineOf]
  by_cases hc : 0 < line_num ∧ line_num ≤ (rustLines code).length
  · have hlt : line_num - 1 < (rustLines code).length := by omega
    rw [if_pos hc, if_pos hc, List.getElem?_eq_getElem hlt, List.getD_eq_getElem _ _ hlt]
  · rw [if_neg hc, if_neg hc]

/-- C3: excerpt resolution: in range, the excerpt is exactly the requested
line, one indexed; out of range, including line zero, it is empty; the
requested line number still appears in the gutter of the output, together
with the error marker and kind. -/
theorem C3_excerpt_resolution :
    (∀ (code : String) (ln : Nat),
        errorLineOf code ln =
          if h : 1 ≤ ln ∧ ln - 1 < (rustLines code).length then
            (rustLines code).get ⟨ln - 1, h.2⟩
          else "")
    ∧ errorLineOf "line 1\nline 2 with error\nline 3" 2 = "line 2 with error"
    ∧ errorLineOf "line 1\nline 2 with error\nline 3" 2 ≠ "line 1"
    ∧ errorLineOf "line 1\nline 2 with error\nline 3" 2 ≠ "line 3"
    ∧ (∀ code : String, errorLineOf code 0 = "")
    ∧ errorLineOf "only one line" 999 = ""
    ∧ format_validation_error "only one line" "test.ts" "Error" 999 1 "msg" "help" 5 =
        "\nValidation Error\n❌ Error\n\n┌─ test.ts:999:1\n│\n" ++ "999 │" ++
          " \n│ ^^^^^ msg\n│\n= help: help\n│\n"
    ∧ format_validation_error "only one line" "test.ts" "Error" 999 1 "msg" "help" 5 =
        "\nValidation Error\n" ++ "❌ Error" ++
          "\n\n┌─ test.ts:999:1\n│\n999 │ \n│ ^^^^^ msg\n│\n= help: help\n│\n" := by
  refine ⟨?_, by decide, by decide, by decide, ?_, by decide, by decide, by decide⟩
  · intro code ln
    by_cases h1 : 0 < ln ∧ ln ≤ (rustLines code).length
    · have hlt : ln - 1 < (rustLines code).length := by omega
      simp only [errorLineOf]
      rw [if_pos h1, dif_pos ⟨h1.1, hlt⟩, List.getD_eq_getElem _ _ hlt,
        List.get_eq_getElem]
    · have h2 : ¬(1 ≤ ln ∧ ln - 1 < (rustLines code).length) := by
        intro hcon
        exact h1 ⟨hcon.1, by omega⟩
      simp only [errorLineOf]
      rw [if_neg h1, dif_neg h2]
  · intro code
    simp [errorLineOf]

/-- C4, counterexample: the claim that an input with underline_length zero
yields an output with exactly one caret fails when another text input
itself holds a caret: with the message set to a single caret the output
holds two. -/
theorem C4_caret_cex :
    ¬ countChar (format_validation_error "" "" "" 0 0 "^" "" 0) '^' = 1 := by
  decide

/-- C4, amended: when none of code, file_path, error_kind, message and
help holds a caret character, the output holds exactly
max(underline_length, 1) caret characters, and they occur as one
consecutive run. -/
theorem C4_caret_count (code file_path error_kind message help : String)
    (line_num col_num underline_length : Nat)
    (h1 : countChar code '^' = 0) (h2 : countChar file_path '^' = 0)
    (h3 : countChar error_kind '^' = 0) (h4 : countChar message '^' = 0)
    (h5 : countChar help '^' = 0) :
    countChar (format_validation_error code file_path error_kind line_num col_num
        message help underline_length) '^' = underline_length.max 1
    ∧ format_validation_error code file_path error_kind line_num col_num
        message help underline_length =
      ("\nValidation Error\n❌ " ++ error_kind ++ "\n\n┌─ " ++ file_path ++ ":" ++
          Nat.repr line_num ++ ":" ++ Nat.repr col_num ++ "\n│\n" ++
          alignRight3 (Nat.repr line_num) ++ " │ " ++ errorLineOf code line_num ++
          "\n│ " ++ spaces (col_num - 1)) ++
        caretRun (underline_length.max 1) ++
        (" " ++ message ++ "\n│\n= help: " ++ help ++ "\n│\n") := by
  constructor
  · have e1 : countChar "\nValidation Error\n❌ " '^' = 0 := by decide
    have e2 : countChar "\n\n┌─ " '^' = 0 := by decide
    have e3 : countChar ":" '^' = 0 := by decide
    have e4 : countChar "\n│\n" '^' = 0 := by decide
    have e5 : countChar " │ " '^' = 0 := by decide
    have e6 : countChar "\n│ " '^' = 0 := by decide
    have e7 : countChar " " '^' = 0 := by decide
    have e8 : countChar "\n│\n= help: " '^' = 0 := by decide
    simp only [format_validation_error, format_error_impl, renderReport,
      countChar_append, e1, e2, e3, e4, e5, e6, e7, e8, h1, h2, h3, h4, h5,
      countChar_repr, countChar_alignRight3, countChar_spaces, countChar_caretRun,
      countChar_errorLineOf code line_num h1]
    omega
  · apply String.ext
    simp [format_validation_error, format_error_impl, renderReport,
      String.data_append, alignRight3]

/-- C4, witness for the amended theorem at a concrete input. -/
theorem C4_caret_witness :
    countChar "ab" '^' = 0 ∧
      countChar (format_validation_error "ab" "f" "E" 1 2 "m" "h" 0) '^' = Nat.max 0 1 :=
  ⟨by decide,
    (C4_caret_count "ab" "f" "E" "m" "h" 1 2 0 (by decide) (by decide) (by decide)
        (by decide) (by decide)).1⟩

/-- C5: the underline line of the output is the separator, one literal
space, then exactly max(col_num - 1, 0) padding space characters placed
immediately before the caret run; the subtraction saturates at zero, so no
negative repeat count ever arises, column numbers zero and one give empty
padding, and column 26 gives exactly 25 padding spaces. -/
theorem C5_column_padding :
    ∀ (code file_path error_kind : String) (line_num col_num : Nat)
      (message help : String) (underline_length : Nat),
      (∃ A, format_validation_error code file_path error_kind line_num col_num
          message help underline_length =
        A ++ "\n│ " ++ spaces (col_num - 1) ++ caretRun (underline_length.max 1) ++
          " " ++ message ++ "\n│\n= help: " ++ help ++ "\n│\n")
      ∧ (spaces (col_num - 1)).length = col_num - 1
      ∧ spaces (1 - 1) = "" ∧ spaces (0 - 1) = "" ∧ (spaces (26 - 1)).length = 25 := by
  intro code file_path error_kind line_num col_num message help underline_length
  refine ⟨⟨"\nValidation Error\n❌ " ++ error_kind ++ "\n\n┌─ " ++ file_path ++ ":" ++
      Nat.repr line_num ++ ":" ++ Nat.repr col_num ++ "\n│\n" ++
      alignRight3 (Nat.repr line_num) ++ " │ " ++ errorLineOf code line_num, ?_⟩,
    spaces_length _, by decide, by decide, by decide⟩
  apply String.ext
  simp [format_validation_error, format_error_impl, renderReport, String.data_append]

/-- C6: line splitting: the number of lines is the number of newline
terminators, plus one for a final unterminated line, so a trailing
terminator opens no spurious empty final line and the empty input has zero
lines; a terminated line excludes its terminator, as no line contains a
newline character; a carriage return before the newline is excluded too. -/
theorem C6_line_splitting :
    (∀ s : String, (rustLines s).length =
        s.data.count '\n' + (if s.data = [] then 0 else if endsWithNl s.data then 0 else 1))
    ∧ rustLines "" = []
    ∧ rustLines "a\n" = ["a"]
    ∧ rustLines "a\r\nb" = ["a", "b"]
    ∧ (∀ s : String, ∀ t ∈ rustLines s, '\n' ∉ t.data) := by
  refine ⟨?_, by decide, by decide, by decide, ?_⟩
  · intro s
    simp only [rustLines, List.length_map]
    rw [linesAux_length s.data []]
    by_cases hs : s.data = [] <;> simp [hs]
  · intro s t ht
    simp only [rustLines, List.mem_map] at ht
    obtain ⟨m, hm, he⟩ := ht
    rw [← he]
    exact linesAux_no_newline s.data [] (by simp) m hm

/-- C6, witness at a concrete line of a concrete input. -/
theorem C6_witness : "a" ∈ rustLines "a\nb" ∧ '\n' ∉ "a".data :=
  ⟨by decide, C6_line_splitting.2.2.2.2 "a\nb" "a" (by decide)⟩

/-- C7: determinism and purity: the output is a function of the eight
arguments only, so equal argument tuples give byte-identical outputs. -/
theorem C7_determinism (code file_path error_kind : String) (line_num col_num : Nat)
    (message help : String) (underline_length : Nat)
    (code2 file_path2 error_kind2 : String) (line_num2 col_num2 : Nat)
    (message2 help2 : String) (underline_length2 : Nat)
    (h : (code, file_path, error_kind, line_num, col_num, message, help,
          underline_length) =
        (code2, file_path2, error_kind2, line_num2, col_num2, message2, help2,
          underline_length2)) :
    format_validation_error code file_path error_kind line_num col_num message help
        underline_length =
      format_validation_error code2 file_path2 error_kind2 line_num2 col_num2 message2
        help2 underline_length2 := by
  cases h
  rfl

/-- C7, witness at a concrete argument tuple. -/
theorem C7_witness :
    ("a", "f", "E", (1 : Nat), (1 : Nat), "m", "h", (1 : Nat)) =
        ("a", "f", "E", (1 : Nat), (1 : Nat), "m", "h", (1 : Nat)) ∧
      format_validation_error "a" "f" "E" 1 1 "m" "h" 1 =
        format_validation_error "a" "f" "E" 1 1 "m" "h" 1 :=
  ⟨rfl, C7_determinism "a" "f" "E" 1 1 "m" "h" 1 "a" "f" "E" 1 1 "m" "h" 1 rfl⟩

/-- C8: the output contains the location header, the file path, a colon,
the decimal line number, a colon and the decimal column number, verbatim;
at the example values the header reads test.ts:1:26. -/
theorem C8_location_header :
    (∀ (code file_path error_kind : String) (line_num col_num : Nat)
      (message help : String) (underline_length : Nat),
      ∃ A B, format_validation_error code file_path error_kind line_num col_num
          message help underline_length =
        A ++ (file_path ++ ":" ++ Nat.repr line_num ++ ":" ++ Nat.repr col_num) ++ B)
    ∧ "test.ts" ++ ":" ++ Nat.repr 1 ++ ":" ++ Nat.repr 26 = "test.ts:1:26" := by
  refine ⟨?_, by decide⟩
  intro code file_path error_kind line_num col_num message help underline_length
  refine ⟨"\nValidation Error\n❌ " ++ error_kind ++ "\n\n┌─ ",
    "\n│\n" ++ alignRight3 (Nat.repr line_num) ++ " │ " ++ errorLineOf code line_num ++
      "\n│ " ++ spaces (col_num - 1) ++ caretRun (underline_length.max 1) ++ " " ++
      message ++ "\n│\n= help: " ++ help ++ "\n│\n", ?_⟩
  apply String.ext
  simp [format_validation_error, format_error_impl, renderReport, String.data_append]

/-- C9: wrapper transparency: the exported function returns exactly the
value of the internal implementation on every input. -/
theorem C9_wrapper_transparent :
    ∀ (code file_path error_kind : String) (line_num col_num : Nat)
      (message help : String) (underline_length : Nat),
      format_validation_error code file_path error_kind line_num col_num message help
          underline_length =
        format_error_impl code file_path error_kind line_num col_num message help
          underline_length := by
  intro code file_path error_kind line_num col_num message help underline_length
  rfl

/-- C10: noninterference with unselected lines: two code inputs whose
excerpt resolution agrees at the requested line give byte-identical
outputs, the other seven arguments held fixed. -/
theorem C10_noninterference (code1 code2 file_path error_kind : String)
    (line_num col_num : Nat) (message help : String) (underline_length : Nat)
    (hex : errorLineOf code1 line_num = errorLineOf code2 line_num) :
    format_validation_error code1 file_path error_kind line_num col_num message help
        underline_length =
      format_validation_error code2 file_path error_kind line_num col_num message help
        underline_length := by
  unfold format_validation_error format_error_impl
  rw [hex]

/-- C10, witness: two different code inputs with the same second line. -/
theorem C10_witness :
    errorLineOf "x\ny" 2 = errorLineOf "z\ny" 2 ∧
      format_validation_error "x\ny" "f" "E" 2 1 "m" "h" 1 =
        format_validation_error "z\ny" "f" "E" 2 1 "m" "h" 1 :=
  ⟨by decide, C10_noninterference "x\ny" "z\ny" "f" "E" 2 1 "m" "h" 1 (by decide)⟩
